import Mathlib

/-
Verification of the live_audio_app audio pipeline.

Shallow embedding of the core pipeline:
  - PCM16Encoder.encode / PCM16Encoder.validateAudioData (encoder source file)
  - OpenAIRealtimeSTT: connect, disconnect, sendAudioData, handleClose,
    handleMessage, arrayBufferToBase64 (src/lib/stt.ts)
  - the page-level transcript callbacks (src/app/page.tsx)

Numeric modelling: JavaScript numbers are IEEE float64; audio samples are
float32 values read out as float64.  Every arithmetic step the encoder
performs on a clamped sample is exact in float64: multiplying a float32
value (24-bit significand) by 0x8000 = 2^15 or 0x7FFF (15 bits) yields a
product with at most 39 significand bits, well inside the 53 bits of
float64, and no overflow is possible for inputs clamped to [-1, 1].
Hence finite samples are modelled as exact rationals, with distinguished
NaN and infinity values mirroring the non-finite float inputs the code
tolerates (Math.min and Math.max propagate NaN; the Int16Array element
store applies the ECMAScript ToInt16 conversion, which truncates toward
zero, wraps modulo 2^16, and maps NaN and infinities to 0).
-/

namespace LiveAudio

/-- A JavaScript number as the encoder sees it: NaN, an infinity, or an
exactly represented finite value. -/
inductive JSNum where
  | nan : JSNum
  | posInf : JSNum
  | negInf : JSNum
  | num : ℚ → JSNum
deriving DecidableEq

/-- Math.min: NaN-propagating minimum. -/
def jsMin : JSNum → JSNum → JSNum
  | JSNum.nan, _ => JSNum.nan
  | _, JSNum.nan => JSNum.nan
  | JSNum.posInf, b => b
  | a, JSNum.posInf => a
  | JSNum.negInf, _ => JSNum.negInf
  | _, JSNum.negInf => JSNum.negInf
  | JSNum.num x, JSNum.num y => JSNum.num (min x y)

/-- Math.max: NaN-propagating maximum. -/
def jsMax : JSNum → JSNum → JSNum
  | JSNum.nan, _ => JSNum.nan
  | _, JSNum.nan => JSNum.nan
  | JSNum.negInf, b => b
  | a, JSNum.negInf => a
  | JSNum.posInf, _ => JSNum.posInf
  | _, JSNum.posInf => JSNum.posInf
  | JSNum.num x, JSNum.num y => JSNum.num (max x y)

/-- The JavaScript comparison x < 0 (false on NaN). -/
def jsLtZero : JSNum → Bool
  | JSNum.num q => decide (q < 0)
  | JSNum.negInf => true
  | _ => false

/-- Multiplication by a positive integer constant (0x8000 or 0x7FFF in the
encoder); exact in float64 for the values the encoder produces. -/
def jsMulConst : JSNum → ℚ → JSNum
  | JSNum.nan, _ => JSNum.nan
  | JSNum.posInf, _ => JSNum.posInf
  | JSNum.negInf, _ => JSNum.negInf
  | JSNum.num q, k => JSNum.num (q * k)

/-- Truncation toward zero, as in the ECMAScript ToInt16 conversion. -/
def truncQ (q : ℚ) : ℤ := if 0 ≤ q then ⌊q⌋ else ⌈q⌉

/-- Wrap an integer to the signed 16-bit range, as ToInt16 does after
truncation. -/
def toInt16Z (t : ℤ) : ℤ :=
  if 32768 ≤ t % 65536 then t % 65536 - 65536 else t % 65536

/-- The full ECMAScript ToInt16 conversion performed by an Int16Array
element store: NaN and infinities go to 0, finite values are truncated
toward zero and wrapped modulo 2^16 into [-32768, 32767]. -/
def toInt16 : JSNum → ℤ
  | JSNum.num q => toInt16Z (truncQ q)
  | _ => 0

/-- One loop iteration of PCM16Encoder.encode: clamp the sample to
[-1.0, 1.0] with Math.max(-1.0, Math.min(1.0, x)), scale negatives by
0x8000 and non-negatives by 0x7FFF, and store into the Int16Array. -/
def encodeSample (s : JSNum) : ℤ :=
  let clamped := jsMax (JSNum.num (-1)) (jsMin (JSNum.num 1) s)
  toInt16 (if jsLtZero clamped then jsMulConst clamped 32768 else jsMulConst clamped 32767)

/-- PCM16Encoder.encode: the loop writes slot i of the output from slot i
of the input, which is exactly a map over the sample list. -/
def encode (l : List JSNum) : List ℤ := l.map encodeSample

/-- The per-sample predicate inside PCM16Encoder.validateAudioData:
not NaN, nonzero, and of magnitude above 0.0001.  (The JS literal 0.0001
is the float64 nearest 1/10000; the distinction cannot matter because the
result only drives a console warning.) -/
def validSample : JSNum → Bool
  | JSNum.nan => false
  | JSNum.posInf => true
  | JSNum.negInf => true
  | JSNum.num q => decide (q ≠ 0) && decide ((1 : ℚ)/10000 < |q|)

/-- audioData.some(...) in PCM16Encoder.validateAudioData. -/
def hasValidSamples (l : List JSNum) : Bool := l.any validSample

/-- PCM16Encoder.validateAudioData: the instanceof check is enforced by
typing here; the level check only emits a console warning, and the
function returns true unconditionally. -/
def validateAudioData (l : List JSNum) : Bool :=
  let _warnIfSilent := hasValidSamples l
  true

/-
--------------------------------------------------------------------------
OpenAIRealtimeSTT (src/lib/stt.ts)
--------------------------------------------------------------------------
The client owns a WebSocket handle (modelled by its presence), a connected
flag, a reconnect counter and a cached client secret.  Its observable
behaviour is the list of frames written to the socket (OutMsg) and the
list of callback invocations into the page (Callback).
-/

/-- Outbound socket frames produced by the client (section 6 of the spec:
session.update, input_audio_buffer.append, input_audio_buffer.commit). -/
inductive OutMsg where
  | sessionUpdate : OutMsg
  | append : String → OutMsg
  | commit : OutMsg
deriving DecidableEq

/-- The four callback channels of STTCallbacks. -/
inductive Callback where
  | partialTx : String → Callback
  | finalTx : String → Callback
  | errorCb : String → Callback
  | connState : Bool → Callback
deriving DecidableEq

/-- The mutable instance fields of OpenAIRealtimeSTT.  The socket object
carries no observable data of its own, so presence is what is modelled. -/
structure STTState where
  ws : Option Unit
  isConnected : Bool
  reconnectAttempts : ℕ
  clientSecret : Option String
deriving DecidableEq

/-- Little-endian byte pair of one Int16Array element, as a Uint8Array
view of the buffer reads it back. -/
def int16LEBytes (z : ℤ) : List ℕ :=
  let u := (z % 65536).toNat
  [u % 256, u / 256]

/-- The base64 alphabet used by btoa. -/
def base64Table : List Char :=
  [ 'A', 'B', 'C', 'D', 'E', 'F', 'G', 'H', 'I', 'J', 'K', 'L', 'M',
    'N', 'O', 'P', 'Q', 'R', 'S', 'T', 'U', 'V', 'W', 'X', 'Y', 'Z',
    'a', 'b', 'c', 'd', 'e', 'f', 'g', 'h', 'i', 'j', 'k', 'l', 'm',
    'n', 'o', 'p', 'q', 'r', 's', 't', 'u', 'v', 'w', 'x', 'y', 'z',
    '0', '1', '2', '3', '4', '5', '6', '7', '8', '9', '+', '/' ]

/-- Index into the base64 alphabet. -/
def b64CharAt (n : ℕ) : Char := base64Table.getD n 'A'

/-- btoa on a byte sequence: 3 bytes become 4 sextet characters, with
final groups of 1 or 2 bytes padded by =. -/
def btoaBytes : List ℕ → List Char
  | b1 :: b2 :: b3 :: rest =>
      b64CharAt (b1 / 4) :: b64CharAt (b1 % 4 * 16 + b2 / 16) ::
      b64CharAt (b2 % 16 * 4 + b3 / 64) :: b64CharAt (b3 % 64) :: btoaBytes rest
  | [b1, b2] =>
      [b64CharAt (b1 / 4), b64CharAt (b1 % 4 * 16 + b2 / 16),
       b64CharAt (b2 % 16 * 4), '=']
  | [b1] =>
      [b64CharAt (b1 / 4), b64CharAt (b1 % 4 * 16), '=', '=']
  | [] => []

/-- OpenAIRealtimeSTT.arrayBufferToBase64 applied to the PCM16 buffer:
reads the Int16Array storage as bytes and base64-encodes them. -/
def arrayBufferToBase64 (pcm : List ℤ) : String :=
  String.mk (btoaBytes (pcm.flatMap int16LEBytes))

/-- OpenAIRealtimeSTT.sendAudioData.  The failAt oracle models the
possibility that a ws.send call throws: some k means the send of frame
index k raises, so only the frames before it reach the wire; the
surrounding try/catch swallows the exception either way.  The instance
state is never written by this method. -/
def sendAudioData (st : STTState) (audioData : List JSNum) (failAt : Option ℕ) :
    STTState × List OutMsg :=
  if st.isConnected = false ∨ st.ws = none then
    (st, [])
  else if validateAudioData audioData = false then
    (st, [])
  else
    let b64 := arrayBufferToBase64 (encode audioData)
    let frames := [OutMsg.append b64, OutMsg.commit]
    match failAt with
    | none => (st, frames)
    | some k => (st, frames.take k)

/-- OpenAIRealtimeSTT.disconnect: close the socket if present, null it,
force isConnected to false, and signal connection-state false.  The
middle component records whether ws.close() was invoked. -/
def disconnect (st : STTState) : STTState × Bool × List Callback :=
  match st.ws with
  | some _ =>
      (STTState.mk none false st.reconnectAttempts st.clientSecret, true,
       [Callback.connState false])
  | none =>
      (STTState.mk none false st.reconnectAttempts st.clientSecret, false,
       [Callback.connState false])

/-- The error string built by OpenAIRealtimeSTT.handleClose for an
abnormal close (template literals spelled out as concatenation). -/
def closeErrorMsg (code : ℕ) (reason : String) : String :=
  let closeReason :=
    if reason = "" then "WebSocket closed with code " ++ toString code else reason
  "Connection closed: " ++ closeReason ++ " (Code: " ++ toString code ++ ")"

/-- OpenAIRealtimeSTT.handleClose: drop to disconnected, signal the state
change, and raise an error callback unless the close code is 1000. -/
def handleClose (st : STTState) (code : ℕ) (reason : String) :
    STTState × List Callback :=
  let st1 := STTState.mk st.ws false st.reconnectAttempts st.clientSecret
  if code ≠ 1000 then
    (st1, [Callback.connState false, Callback.errorCb (closeErrorMsg code reason)])
  else
    (st1, [Callback.connState false])

/-- JavaScript a || b on an optional string: the fallback is used when the
value is absent or empty (falsy). -/
def jsOrString (s : Option String) (d : String) : String :=
  match s with
  | some v => if v = "" then d else v
  | none => d

/-- startsWith on character lists (pattern first). -/
def startsWithL : List Char → List Char → Bool
  | [], _ => true
  | _ :: _, [] => false
  | p :: ps, c :: cs => p = c && startsWithL ps cs

/-- Substring occurrence on character lists (pattern first). -/
def hasSubstrL (pat : List Char) : List Char → Bool
  | [] => pat.isEmpty
  | c :: cs => startsWithL pat (c :: cs) || hasSubstrL pat cs

/-- JavaScript String.prototype.includes (case-sensitive substring). -/
def jsIncludes (s pat : String) : Bool := hasSubstrL pat.data s.data

/-- The error object of an inbound error frame, as handleMessage reads
it: optional message and code fields plus its JSON.stringify rendering. -/
structure ErrObj where
  message : Option String
  code : Option String
  stringified : String
deriving DecidableEq

/-- An inbound socket frame as handleMessage reads it after JSON.parse:
a type tag and the fields the dispatch inspects. -/
structure InMsg where
  type : String
  transcript : Option String
  delta : Option String
  errObj : Option ErrObj
deriving DecidableEq

/-- The error-text fallback chain of the error case of handleMessage:
message, then code, then the stringified object, then a fixed string.
JSON.stringify of an absent error object is undefined, hence falsy. -/
def openAIErrorMsg : Option ErrObj → String
  | none => "OpenAI error"
  | some e => jsOrString e.message (jsOrString e.code (jsOrString (some e.stringified) "OpenAI error"))

/-- OpenAIRealtimeSTT.handleMessage: dispatch on the message type.  A
completed transcription with truthy (non-empty) transcript produces one
final-transcript callback; a text delta with truthy delta produces one
partial-transcript callback; an error frame produces one error callback;
session.created, session.updated and unrecognized types produce none. -/
def handleMessage (m : InMsg) : List Callback :=
  if m.type = "conversation.item.input_audio_transcription.completed" then
    match m.transcript with
    | some t => if t = "" then [] else [Callback.finalTx t]
    | none => []
  else if m.type = "response.text.delta" then
    match m.delta with
    | some d => if d = "" then [] else [Callback.partialTx d]
    | none => []
  else if m.type = "error" then
    [Callback.errorCb (openAIErrorMsg m.errObj)]
  else
    []

/-- The credential-guidance message thrown by connect when the token
endpoint reports an API-key problem. -/
def apiKeyGuidance : String :=
  "Please set your OPENAI_API_KEY in .env.local file. Get your API key from https://platform.openai.com/account/api-keys"

/-- The response of the POST to /api/openai-token as connect reads it:
HTTP ok flag and status, and the parsed JSON body fields it inspects
(error and client_secret).  A non-JSON body parses to the empty object,
that is, both fields absent. -/
structure TokenHttpResponse where
  ok : Bool
  status : ℕ
  errorField : Option String
  clientSecret : Option String
deriving DecidableEq

/-- OpenAIRealtimeSTT.connect up to the point the WebSocket is requested.
On a non-ok token response it throws: the credential-guidance message
when the error text contains an API-key marker, a generic message
otherwise.  On a missing or empty client_secret it throws.  Otherwise it
stores the secret, creates the socket and returns; the open event is
asynchronous, so isConnected is untouched here.  The catch block reports
the thrown message on the error channel and rethrows. -/
def connect (st : STTState) (resp : TokenHttpResponse) :
    STTState × Except String Unit × List Callback :=
  if resp.ok = false then
    let hasMarker :=
      match resp.errorField with
      | some e => jsIncludes e "API key" || jsIncludes e "your_openai_api_key"
      | none => false
    let msg :=
      if hasMarker then apiKeyGuidance
      else "Failed to get OpenAI token: " ++ jsOrString resp.errorField "Unknown error"
    (st, Except.error msg, [Callback.errorCb msg])
  else
    let st1 := STTState.mk st.ws st.isConnected st.reconnectAttempts resp.clientSecret
    match resp.clientSecret with
    | some s =>
        if s = "" then
          (st1, Except.error "No client_secret received from server",
           [Callback.errorCb "No client_secret received from server"])
        else
          (STTState.mk (some ()) st1.isConnected st1.reconnectAttempts st1.clientSecret,
           Except.ok (), [])
    | none =>
        (st1, Except.error "No client_secret received from server",
         [Callback.errorCb "No client_secret received from server"])

/-
--------------------------------------------------------------------------
Page-level callbacks (src/app/page.tsx)
--------------------------------------------------------------------------
-/

/-- The page state touched by the four STT callbacks. -/
structure PageState where
  finalTranscript : String
  partialTranscript : String
  errorMsg : Option String
  isRecording : Bool
  connectionStatus : String
deriving DecidableEq

/-- handlePartialTranscript of page.tsx: replace the partial transcript. -/
def handlePartialTranscript (ps : PageState) (text : String) : PageState :=
  PageState.mk ps.finalTranscript text ps.errorMsg ps.isRecording ps.connectionStatus

/-- handleFinalTranscript of page.tsx: append the text plus a trailing
space separator to the final transcript and clear the partial one. -/
def handleFinalTranscript (ps : PageState) (text : String) : PageState :=
  PageState.mk (ps.finalTranscript ++ text ++ " ") "" ps.errorMsg ps.isRecording ps.connectionStatus

/-- handleSTTError of page.tsx: record the error and stop recording. -/
def handleSTTError (ps : PageState) (e : String) : PageState :=
  PageState.mk ps.finalTranscript ps.partialTranscript (some e) false ps.connectionStatus

/-- handleConnectionStateChange of page.tsx. -/
def handleConnectionStateChange (ps : PageState) (connected : Bool) : PageState :=
  PageState.mk ps.finalTranscript ps.partialTranscript ps.errorMsg ps.isRecording
    (if connected then "connected" else "disconnected")

/-- Dispatch one callback invocation to the page handlers. -/
def applyCallback (ps : PageState) : Callback → PageState
  | Callback.partialTx t => handlePartialTranscript ps t
  | Callback.finalTx t => handleFinalTranscript ps t
  | Callback.errorCb e => handleSTTError ps e
  | Callback.connState b => handleConnectionStateChange ps b

/-
--------------------------------------------------------------------------
Theorems
--------------------------------------------------------------------------
-/

/-- Claim C2: for every input SampleBuffer of length N, encode produces
exactly N 16-bit output values, and the i-th output value is the
conversion of the i-th input sample, so sample order is preserved
exactly; encode is a total function, hence has no error conditions. -/
theorem encode_length_and_order (l : List JSNum) :
    (encode l).length = l.length
    ∧ ∀ i : ℕ, (encode l)[i]? = (l[i]?).map encodeSample := by
  refine ⟨by simp [encode], fun i => ?_⟩
  simp [encode, List.getElem?_map]

/-- Claim C8: validateAudioData returns true on every sample buffer,
including all-zero, near-zero and all-NaN buffers; the degenerate-audio
check only feeds a console warning (hasValidSamples is false on such a
buffer) and never rejects the frame. -/
theorem validateAudioData_always_true :
    (∀ l : List JSNum, validateAudioData l = true)
    ∧ hasValidSamples [JSNum.num 0, JSNum.num (1/100000), JSNum.nan] = false
    ∧ validateAudioData [JSNum.num 0, JSNum.num (1/100000), JSNum.nan] = true := by
  refine ⟨fun l => rfl, by with_unfolding_all decide, rfl⟩

/-- Claim C9: disconnect closes the socket exactly when one is open,
clears it, leaves the state Disconnected, and signals
connection-state=false, from every prior state; running it twice ends in
the same state as running it once. -/
theorem disconnect_idempotent (st : STTState) :
    disconnect st
      = (STTState.mk none false st.reconnectAttempts st.clientSecret,
         st.ws.isSome, [Callback.connState false])
    ∧ (disconnect (disconnect st).1).1 = (disconnect st).1 := by
  cases h : st.ws <;> simp [disconnect, h]

/-- Claim C10: a NaN sample anywhere in the buffer is encoded to 0 (NaN
survives the Math.max/Math.min clamp, fails the clamped < 0 test, stays
NaN under scaling, and the ToInt16 store maps NaN to 0); encode is total
on non-finite inputs, sending the infinities to the clamp endpoints. -/
theorem encode_nan_to_zero :
    encodeSample JSNum.nan = 0
    ∧ (∀ pre post : List JSNum,
        encode (pre ++ JSNum.nan :: post) = encode pre ++ 0 :: encode post)
    ∧ jsMax (JSNum.num (-1)) (jsMin (JSNum.num 1) JSNum.nan) = JSNum.nan
    ∧ jsLtZero JSNum.nan = false
    ∧ jsMulConst JSNum.nan 32767 = JSNum.nan
    ∧ toInt16 JSNum.nan = 0
    ∧ encodeSample JSNum.posInf = 32767
    ∧ encodeSample JSNum.negInf = -32768 := by
  refine ⟨rfl, fun pre post => ?_, rfl, rfl, rfl, rfl, ?_, ?_⟩
  · simp [encode]
    rfl
  · with_unfolding_all decide
  · with_unfolding_all decide

/-- Claim C7: a transcription-completed frame with transcript hello
yields exactly one final-transcript delivery; the page handler appends
the text plus a trailing space to the accumulated final transcript (so
from an empty transcript the accumulated text is exactly that of hello
with the separator) and clears any pending partial transcript.  A
text-delta frame with delta wor yields exactly one partial-transcript
delivery that replaces the partial transcript and leaves the final text
untouched. -/
theorem final_partial_isolation (ps : PageState) :
    handleMessage (InMsg.mk "conversation.item.input_audio_transcription.completed"
        (some "hello") none none)
      = [Callback.finalTx "hello"]
    ∧ applyCallback ps (Callback.finalTx "hello")
      = PageState.mk (ps.finalTranscript ++ "hello" ++ " ") "" ps.errorMsg
          ps.isRecording ps.connectionStatus
    ∧ applyCallback (PageState.mk "" "pending" none true "connected")
        (Callback.finalTx "hello")
      = PageState.mk "hello " "" none true "connected"
    ∧ handleMessage (InMsg.mk "response.text.delta" none (some "wor") none)
      = [Callback.partialTx "wor"]
    ∧ applyCallback ps (Callback.partialTx "wor")
      = PageState.mk ps.finalTranscript "wor" ps.errorMsg ps.isRecording
          ps.connectionStatus := by
  refine ⟨rfl, rfl, by decide, rfl, rfl⟩

/-- Claim C3: for every sendAudioData call accepted while connected, the
append frame carrying the encoded audio goes to the socket strictly
before its paired commit frame: whenever a commit was sent, the wire
trace of the call is exactly append-then-commit, and when no send throws
the trace is exactly append-then-commit.  In particular no commit is
ever sent without a preceding append of the same call. -/
theorem sendAudioData_append_before_commit (st : STTState) (buf : List JSNum)
    (failAt : Option ℕ) (hConn : st.isConnected = true) (hWs : st.ws = some ()) :
    (OutMsg.commit ∈ (sendAudioData st buf failAt).2 →
      (sendAudioData st buf failAt).2
        = [OutMsg.append (arrayBufferToBase64 (encode buf)), OutMsg.commit])
    ∧ (failAt = none →
      (sendAudioData st buf failAt).2
        = [OutMsg.append (arrayBufferToBase64 (encode buf)), OutMsg.commit]) := by
  have hguard : ¬(st.isConnected = false ∨ st.ws = none) := by
    simp [hConn, hWs]
  unfold sendAudioData
  rw [if_neg hguard, if_neg (by simp [validateAudioData])]
  rcases failAt with _ | k
  · exact ⟨fun _ => rfl, fun _ => rfl⟩
  · refine ⟨?_, by simp⟩
    match k with
    | 0 => intro h; simp at h
    | 1 => intro h; simp [List.take] at h
    | Nat.succ (Nat.succ k) => intro _; simp [List.take]

/-- Witness for claim C3 at a concrete connected state and buffer. -/
theorem sendAudioData_append_before_commit_witness :
    (STTState.mk (some ()) true 0 none).isConnected = true
    ∧ (STTState.mk (some ()) true 0 none).ws = some ()
    ∧ (sendAudioData (STTState.mk (some ()) true 0 none) [JSNum.num 0] none).2
        = [OutMsg.append (arrayBufferToBase64 (encode [JSNum.num 0])), OutMsg.commit] :=
  ⟨rfl, rfl,
    (sendAudioData_append_before_commit (STTState.mk (some ()) true 0 none)
      [JSNum.num 0] none rfl rfl).2 rfl⟩

/-- Claim C4: sendAudioData while not connected is a no-op that sends
zero frames and leaves the state untouched (the frame is dropped, not
queued); a transmission failure on an individual frame never changes the
instance state, so a later call behaves exactly as if the failed call
had not happened. -/
theorem sendAudioData_drop_and_isolation (st : STTState) (buf : List JSNum)
    (failAt : Option ℕ) :
    (st.isConnected = false → sendAudioData st buf failAt = (st, []))
    ∧ (sendAudioData st buf failAt).1 = st
    ∧ (∀ (buf2 : List JSNum) (failAt2 : Option ℕ),
        sendAudioData (sendAudioData st buf failAt).1 buf2 failAt2
          = sendAudioData st buf2 failAt2) := by
  have hfst : (sendAudioData st buf failAt).1 = st := by
    unfold sendAudioData
    split
    · rfl
    · split
      · rfl
      · rcases failAt with _ | k <;> rfl
  refine ⟨fun h => ?_, hfst, fun buf2 failAt2 => by rw [hfst]⟩
  unfold sendAudioData
  rw [if_pos (Or.inl h)]

/-- Witness for claim C4 at a concrete disconnected state. -/
theorem sendAudioData_drop_and_isolation_witness :
    sendAudioData (STTState.mk none false 0 none) [JSNum.num 1] none
      = (STTState.mk none false 0 none, []) :=
  (sendAudioData_drop_and_isolation (STTState.mk none false 0 none)
    [JSNum.num 1] none).1 rfl

/-- Claim C5: a close event with code 1000 produces exactly one
connection-state=false signal and no error signal; a close event with
any other code produces exactly one connection-state=false signal plus
exactly one error signal whose text carries the reason and the numeric
code, as the concrete code-1006 instances spell out. -/
theorem handleClose_signaling (st : STTState) (reason : String) :
    handleClose st 1000 reason
      = (STTState.mk st.ws false st.reconnectAttempts st.clientSecret,
         [Callback.connState false])
    ∧ (∀ code : ℕ, code ≠ 1000 →
        handleClose st code reason
          = (STTState.mk st.ws false st.reconnectAttempts st.clientSecret,
             [Callback.connState false,
              Callback.errorCb (closeErrorMsg code reason)]))
    ∧ jsIncludes (closeErrorMsg 1006 "network lost") "1006" = true
    ∧ jsIncludes (closeErrorMsg 1006 "network lost") "network lost" = true
    ∧ closeErrorMsg 1006 ""
      = "Connection closed: WebSocket closed with code 1006 (Code: 1006)" := by
  refine ⟨by simp [handleClose], fun code hc => by simp [handleClose, hc],
    by decide, by decide, by decide⟩

/-- Witness for claim C5 at close code 1006. -/
theorem handleClose_signaling_witness :
    handleClose (STTState.mk (some ()) true 0 none) 1006 "network lost"
      = (STTState.mk (some ()) false 0 none,
         [Callback.connState false,
          Callback.errorCb (closeErrorMsg 1006 "network lost")]) :=
  (handleClose_signaling (STTState.mk (some ()) true 0 none) "network lost").2.1
    1006 (by decide)

/-- Counterexample to claim C6: when the credential endpoint returns
HTTP 500 with body error field missing OPENAI_API_KEY, that text contains
neither of the markers connect inspects (API key, with a space, and
your_openai_api_key), so connect throws the generic token failure, whose
text is not the credential-guidance message and contains no guidance to
configure the credential. -/
theorem connect_missing_key_counterexample :
    (connect (STTState.mk none false 0 none)
        (TokenHttpResponse.mk false 500 (some "missing OPENAI_API_KEY") none)).2.1
      = Except.error "Failed to get OpenAI token: missing OPENAI_API_KEY"
    ∧ jsIncludes "missing OPENAI_API_KEY" "API key" = false
    ∧ jsIncludes "missing OPENAI_API_KEY" "your_openai_api_key" = false
    ∧ ("Failed to get OpenAI token: missing OPENAI_API_KEY" == apiKeyGuidance)
      = false
    ∧ jsIncludes "Failed to get OpenAI token: missing OPENAI_API_KEY" ".env.local"
      = false
    ∧ jsIncludes "Failed to get OpenAI token: missing OPENAI_API_KEY" "Please set"
      = false := by
  refine ⟨rfl, by decide, by decide, by decide, by decide, by decide⟩

/-- Claim C6 as amended: on that response connect fails (TokenUnavailable)
with the generic message naming the server-reported error text, emits
exactly one error callback and no connection-state callback, so the
state never transitions to connected; the credential-guidance sub-case
fires only when the error text contains a marker, as it does for the
message the token endpoint actually produces when the key is missing,
namely OpenAI API key not configured. -/
theorem connect_missing_key_generic (st : STTState) :
    connect st (TokenHttpResponse.mk false 500 (some "missing OPENAI_API_KEY") none)
      = (st, Except.error "Failed to get OpenAI token: missing OPENAI_API_KEY",
         [Callback.errorCb "Failed to get OpenAI token: missing OPENAI_API_KEY"])
    ∧ (connect st
        (TokenHttpResponse.mk false 500 (some "OpenAI API key not configured") none)).2.1
      = Except.error apiKeyGuidance
    ∧ ([Callback.errorCb "Failed to get OpenAI token: missing OPENAI_API_KEY"].contains
        (Callback.connState true)) = false := by
  have h1 : (jsIncludes "missing OPENAI_API_KEY" "API key"
      || jsIncludes "missing OPENAI_API_KEY" "your_openai_api_key") = false := by decide
  have h2 : (jsIncludes "OpenAI API key not configured" "API key"
      || jsIncludes "OpenAI API key not configured" "your_openai_api_key") = true := by
    decide
  refine ⟨?_, ?_, by decide⟩
  · unfold connect
    simp only [h1]
    rfl
  · unfold connect
    simp only [h2]
    rfl

/-- The ToInt16 wrap is the identity on values already in the signed
16-bit range. -/
theorem toInt16Z_eq_self (t : ℤ) (h1 : -32768 ≤ t) (h2 : t ≤ 32767) :
    toInt16Z t = t := by
  unfold toInt16Z
  split_ifs <;> omega

/-- Truncation toward zero of a value in [0, 32767] stays in [0, 32767]. -/
theorem truncQ_nonneg_bounds (q : ℚ) (h0 : 0 ≤ q) (h1 : q ≤ 32767) :
    0 ≤ truncQ q ∧ truncQ q ≤ 32767 := by
  unfold truncQ
  rw [if_pos h0]
  constructor
  · exact Int.floor_nonneg.mpr h0
  · exact_mod_cast le_trans (Int.floor_le q) h1

/-- Truncation toward zero of a value in [-32768, 0) stays in
[-32768, 0]. -/
theorem truncQ_neg_bounds (q : ℚ) (h0 : -32768 ≤ q) (h1 : q < 0) :
    -32768 ≤ truncQ q ∧ truncQ q ≤ 0 := by
  unfold truncQ
  rw [if_neg (not_le.mpr h1)]
  constructor
  · exact_mod_cast le_trans h0 (Int.le_ceil q)
  · exact Int.ceil_le.mpr (by exact_mod_cast le_of_lt h1)

/-- On a negative finite sample the encoder takes the 0x8000 branch:
the clamp keeps the sample negative, so the stored value is the ToInt16
conversion of the clamped sample scaled by 32768. -/
theorem encodeSample_num_neg (q : ℚ) (hq : q < 0) :
    encodeSample (JSNum.num q) = toInt16Z (truncQ (max (-1) (min 1 q) * 32768)) := by
  have hminq : min 1 q = q := min_eq_right (le_of_lt (lt_of_lt_of_le hq zero_le_one))
  have hc : max (-1) (min 1 q) < 0 := by
    rw [hminq]
    exact max_lt (by norm_num) hq
  simp [encodeSample, jsMin, jsMax, jsLtZero, hc, jsMulConst, toInt16]

/-- On a non-negative finite sample the encoder takes the 0x7FFF branch:
the clamp keeps the sample non-negative, so the stored value is the
ToInt16 conversion of the clamped sample scaled by 32767. -/
theorem encodeSample_num_nonneg (q : ℚ) (hq : 0 ≤ q) :
    encodeSample (JSNum.num q) = toInt16Z (truncQ (max (-1) (min 1 q) * 32767)) := by
  have hc : ¬(max (-1) (min 1 q) < 0) :=
    not_lt.mpr (le_trans (le_min zero_le_one hq) (le_max_right _ _))
  simp [encodeSample, jsMin, jsMax, jsLtZero, hc, jsMulConst, toInt16]

/-- Claim C1: every sample is clamped to [-1, 1] and encoded into
[-32768, 32767]; the endpoint samples -1.0, 1.0 and 0.0 encode to
-32768, 32767 and 0; a negative sample is scaled by 32768 and a
non-negative sample by 32767 (applied to the clamped value) before the
truncating 16-bit integer conversion. -/
theorem encode_clamp_bounds :
    (∀ s : JSNum, -32768 ≤ encodeSample s ∧ encodeSample s ≤ 32767)
    ∧ encodeSample (JSNum.num (-1)) = -32768
    ∧ encodeSample (JSNum.num 1) = 32767
    ∧ encodeSample (JSNum.num 0) = 0
    ∧ (∀ q : ℚ, q < 0 →
        encodeSample (JSNum.num q)
          = toInt16 (JSNum.num (max (-1) (min 1 q) * 32768)))
    ∧ (∀ q : ℚ, 0 ≤ q →
        encodeSample (JSNum.num q)
          = toInt16 (JSNum.num (max (-1) (min 1 q) * 32767))) := by
  have hbound : ∀ s : JSNum, -32768 ≤ encodeSample s ∧ encodeSample s ≤ 32767 := by
    intro s
    match s with
    | JSNum.nan => constructor <;> with_unfolding_all decide
    | JSNum.posInf => constructor <;> with_unfolding_all decide
    | JSNum.negInf => constructor <;> with_unfolding_all decide
    | JSNum.num q =>
      have hcl : -1 ≤ max (-1) (min 1 q) := le_max_left _ _
      have hcu : max (-1) (min 1 q) ≤ 1 := max_le (by norm_num) (min_le_left 1 q)
      rcases lt_or_le q 0 with hq | hq
      · rw [encodeSample_num_neg q hq]
        have hminq : min 1 q = q := min_eq_right (le_of_lt (lt_of_lt_of_le hq zero_le_one))
        have hc0 : max (-1) (min 1 q) < 0 := by
          rw [hminq]; exact max_lt (by norm_num) hq
        have hs0 : -32768 ≤ max (-1) (min 1 q) * 32768 := by nlinarith
        have hs1 : max (-1) (min 1 q) * 32768 < 0 := by nlinarith
        obtain ⟨hb0, hb1⟩ := truncQ_neg_bounds _ hs0 hs1
        rw [toInt16Z_eq_self _ hb0 (by omega)]
        omega
      · rw [encodeSample_num_nonneg q hq]
        have hc0 : 0 ≤ max (-1) (min 1 q) := le_trans (le_min zero_le_one hq) (le_max_right _ _)
        have hs0 : 0 ≤ max (-1) (min 1 q) * 32767 := by nlinarith
        have hs1 : max (-1) (min 1 q) * 32767 ≤ 32767 := by nlinarith
        obtain ⟨hb0, hb1⟩ := truncQ_nonneg_bounds _ hs0 hs1
        rw [toInt16Z_eq_self _ (by omega) hb1]
        omega
  refine ⟨hbound, by with_unfolding_all decide, by with_unfolding_all decide,
    by with_unfolding_all decide, fun q hq => ?_, fun q hq => ?_⟩
  · rw [encodeSample_num_neg q hq]; rfl
  · rw [encodeSample_num_nonneg q hq]; rfl

/-- Witness for claim C1 at the concrete sample -1/2. -/
theorem encode_clamp_bounds_witness :
    (-32768 ≤ encodeSample (JSNum.num (-1/2)) ∧ encodeSample (JSNum.num (-1/2)) ≤ 32767)
    ∧ encodeSample (JSNum.num (-1/2))
      = toInt16 (JSNum.num (max (-1) (min 1 (-1/2 : ℚ)) * 32768)) :=
  ⟨encode_clamp_bounds.1 (JSNum.num (-1/2)),
   encode_clamp_bounds.2.2.2.2.1 (-1/2) (by norm_num)⟩

end LiveAudio
